import Mathlib

/-!
Shallow embedding of the Agent Preview Session Controller of the
ai-agent-platform-frontend repository: the session-token cache
(`ensureAgentSessionToken` in `src/app/agents/[id]/edit/page.tsx` and in the
test chat page), the debounced auto-preview controller (the `useEffect` over
the configuration snapshot together with `runAutoPreview`), the conversation
log with its real-user-activity predicate, and the manual `sendTestMessage`
path.  Machine integers (timestamps, expiries) are modelled as `Nat`/`Int`;
the single-threaded event-loop interleaving is modelled as an explicit step
relation on a controller state.
-/

namespace AgentPreview

/-- Message role, `'user' | 'assistant'` in the source. -/
inductive Role where
  | user
  | assistant
deriving DecidableEq

/-- A conversation message: `interface Message { id: string; role: 'user' | 'assistant'; content: string }`. -/
structure Message where
  id : String
  role : Role
  content : String
deriving DecidableEq

/-- Embedding of JavaScript `s.startsWith(pre)` as a character-list test. -/
def strStartsWith (s pre : String) : Bool :=
  pre.data.isPrefixOf s.data

/-- The real-user predicate used throughout the source:
`message.role === 'user' && !message.id.startsWith('preview-')`. -/
def isRealUserMessage (m : Message) : Bool :=
  m.role == Role.user && !(strStartsWith m.id "preview-")

/-- `messages.some((message) => message.role === 'user' && !message.id.startsWith('preview-'))`. -/
def hasRealUserActivity (log : List Message) : Bool :=
  log.any isRealUserMessage

/-- The configuration snapshot watched by the debounce effect: the tuple of
tunables listed in the `JSON.stringify` call of the effect.  `expertiseLevel`
is a JavaScript number; it is modelled as a rational.  `selectedDocs` holds
the selected knowledge-document ids (JavaScript numbers). -/
structure ConfigSnapshot where
  domainEnabled : Bool
  selectedPersona : String
  selectedDocs : List Int
  webSearchEnabled : Bool
  siteWhitelist : String
  groundingMode : String
  expertiseLevel : ℚ
  additionalContext : String
  personaOverrides : String
  domain : String
deriving DecidableEq

/-- `selectedDocs.slice().sort((a, b) => a - b).join(',')` — the document ids
sorted ascending and joined with commas. -/
def docHash (selectedDocs : List Int) : String :=
  String.intercalate "," ((selectedDocs.insertionSort (· ≤ ·)).map toString)

/-- JSON rendering of a boolean. -/
def jsonBool (b : Bool) : String := if b then "true" else "false"

/-- JSON rendering of a string value (the quoting function; claims only use
that it is a function of the string). -/
def jsonStr (s : String) : String := "\"" ++ s ++ "\""

/-- The configuration hash: `JSON.stringify({ domainEnabled, selectedPersona,
docHash, webSearchEnabled, siteWhitelist, groundingMode, expertiseLevel,
additionalContext, personaOverrides, domain })` with the source's fixed key
order. -/
def configHash (c : ConfigSnapshot) : String :=
  "\x7b\"domainEnabled\":" ++ jsonBool c.domainEnabled ++
  ",\"selectedPersona\":" ++ jsonStr c.selectedPersona ++
  ",\"docHash\":" ++ jsonStr (docHash c.selectedDocs) ++
  ",\"webSearchEnabled\":" ++ jsonBool c.webSearchEnabled ++
  ",\"siteWhitelist\":" ++ jsonStr c.siteWhitelist ++
  ",\"groundingMode\":" ++ jsonStr c.groundingMode ++
  ",\"expertiseLevel\":" ++ toString c.expertiseLevel ++
  ",\"additionalContext\":" ++ jsonStr c.additionalContext ++
  ",\"personaOverrides\":" ++ jsonStr c.personaOverrides ++
  ",\"domain\":" ++ jsonStr c.domain ++ "\x7d"

/-- The synthesized preview prompt built by `runAutoPreview`. -/
def previewPrompt (c : ConfigSnapshot) : String :=
  let docCount := c.selectedDocs.length
  if c.domainEnabled then
    "We just set you up as a " ++ c.domain.toUpper ++ " concierge with persona \"" ++
      c.selectedPersona ++ "\". In two sentences, explain how you\x27ll help customers" ++
      (if docCount ≠ 0 then
        " using " ++ toString docCount ++ " curated source" ++
          (if docCount > 1 then "s" else "")
      else "") ++ "."
  else
    "Introduce yourself and explain the types of help you provide in two concise sentences."

/-- The synthetic preview user message: id is "preview-user-" followed by the
current timestamp, role is user, content is the synthesized prompt. -/
def previewUserMessage (now : Nat) (c : ConfigSnapshot) : Message :=
  { id := "preview-user-" ++ toString now, role := Role.user, content := previewPrompt c }

/-- The assistant reply appended on preview success; `data.response || '(no response)'`. -/
def previewAssistantMessage (now : Nat) (resp : String) : Message :=
  { id := "preview-assistant-" ++ toString (now + 1), role := Role.assistant,
    content := if resp == "" then "(no response)" else resp }

/-- The synthetic error message appended on preview failure. -/
def previewErrorMessage (now : Nat) : Message :=
  { id := "preview-error-" ++ toString (now + 1), role := Role.assistant,
    content := "Preview unavailable right now. Try again after a moment." }

/-- A pending debounce timer: arm time, the hash captured at arm time, and the
configuration snapshot captured by the closure. -/
structure PendingTimer where
  armedAt : Nat
  hash : String
  config : ConfigSnapshot
deriving DecidableEq

/-- The controller state: the conversation log, `previewController.current.hash`
(the settled hash), `previewController.current.timeout` (the pending timer),
whether the last run of the debounce effect registered a React cleanup (it does
so exactly when it arms a timer), and the preview user message captured by an
in-flight `runAutoPreview` request, if any. -/
structure ControllerState where
  log : List Message
  settledHash : String
  pending : Option PendingTimer
  cleanupRegistered : Bool
  inFlight : Option Message
deriving DecidableEq

/-- Observable effects of one step: the configuration carried by a preview chat
request issued in this step (if one was issued), whether a preview-path message
was written to the log, and whether a new debounce timer was armed. -/
structure StepObs where
  requested : Option ConfigSnapshot
  appendedPreview : Bool
  armedTimer : Bool
deriving DecidableEq

/-- The silent observation: no request, no preview write, no arming. -/
def StepObs.silent : StepObs :=
  { requested := none, appendedPreview := false, armedTimer := false }

/-- Events of the single-threaded event loop that touch this mechanism.
`effectRun` is one execution of the debounce `useEffect` body (`guardsOk` is
the value of `currentStep === 3 && createdAgent && agentId` at that run, `c`
the configuration snapshot read from the current render); `unmount` runs only
the registered React cleanup; `timerFire` is the 800 ms timeout callback
(`agentLoaded` is the `createdAgent` guard captured by `runAutoPreview`);
`previewResponse`/`previewFailure` resolve the in-flight preview request;
`userSend` is the synchronous part of `sendTestMessage` (append the real user
message, which also lets the messages-watching effect clear the pending
timer); `manualResponse`/`manualFailure` resolve the manual chat request. -/
inductive Event where
  | effectRun (guardsOk : Bool) (now : Nat) (c : ConfigSnapshot)
  | unmount
  | timerFire (now : Nat) (agentLoaded : Bool)
  | previewResponse (now : Nat) (resp : String)
  | previewFailure (now : Nat)
  | userSend (now : Nat) (input : String) (agentLoaded : Bool)
  | manualResponse (now : Nat) (resp : String)
  | manualFailure (now : Nat)

/-- The React cleanup registered by the debounce effect:
`if (controller.timeout) { clearTimeout(controller.timeout); controller.timeout = null; }`.
It runs before the next execution of the effect (and at unmount) when the
previous execution registered it. -/
def runCleanup (s : ControllerState) : ControllerState :=
  if s.cleanupRegistered then { s with pending := none, cleanupRegistered := false } else s

/-- The messages-watching effect: when the log contains a real user message,
clear any pending debounce timer. -/
def clearTimerOnRealActivity (s : ControllerState) : ControllerState :=
  if hasRealUserActivity s.log then { s with pending := none } else s

/-- One step of the controller.  Each branch is transcribed from the source:
the debounce `useEffect` (guard branch, real-user branch, settled-hash branch,
arm branch), the timeout callback (`controller.hash = hash; runAutoPreview()`),
the three checkpoints of `runAutoPreview`, and the `sendTestMessage` appends. -/
def step (s : ControllerState) : Event → ControllerState × StepObs
  | Event.effectRun guardsOk now c =>
    let s1 := runCleanup s
    if !guardsOk then
      ({ s1 with pending := none, settledHash := "" }, StepObs.silent)
    else if hasRealUserActivity s1.log then
      ({ s1 with settledHash := "" }, StepObs.silent)
    else
      let h := configHash c
      if s1.settledHash == h then
        (s1, StepObs.silent)
      else
        ({ s1 with pending := some ⟨now, h, c⟩, cleanupRegistered := true },
         { requested := none, appendedPreview := false, armedTimer := true })
  | Event.unmount => (runCleanup s, StepObs.silent)
  | Event.timerFire now agentLoaded =>
    match s.pending with
    | none => (s, StepObs.silent)
    | some pt =>
      let s1 := { s with pending := none, settledHash := pt.hash }
      if !agentLoaded then (s1, StepObs.silent)
      else if hasRealUserActivity s1.log then (s1, StepObs.silent)
      else
        let pu := previewUserMessage now pt.config
        ({ s1 with log := [pu], inFlight := some pu },
         { requested := some pt.config, appendedPreview := true, armedTimer := false })
  | Event.previewResponse now resp =>
    match s.inFlight with
    | none => (s, StepObs.silent)
    | some pu =>
      if hasRealUserActivity s.log then
        ({ s with inFlight := none }, StepObs.silent)
      else
        ({ s with log := [pu, previewAssistantMessage now resp], inFlight := none },
         { requested := none, appendedPreview := true, armedTimer := false })
  | Event.previewFailure now =>
    match s.inFlight with
    | none => (s, StepObs.silent)
    | some pu =>
      if hasRealUserActivity s.log then
        ({ s with inFlight := none }, StepObs.silent)
      else
        ({ s with log := [pu, previewErrorMessage now], inFlight := none },
         { requested := none, appendedPreview := true, armedTimer := false })
  | Event.userSend now input agentLoaded =>
    if input.trim == "" || !agentLoaded then (s, StepObs.silent)
    else
      let um : Message := { id := toString now, role := Role.user, content := input.trim }
      (clearTimerOnRealActivity { s with log := s.log ++ [um] }, StepObs.silent)
  | Event.manualResponse now resp =>
    let am : Message := { id := toString (now + 1), role := Role.assistant,
                          content := if resp == "" then "(no response)" else resp }
    (clearTimerOnRealActivity { s with log := s.log ++ [am] }, StepObs.silent)
  | Event.manualFailure now =>
    let am : Message := { id := toString (now + 1), role := Role.assistant,
                          content := "Error sending message. Try again." }
    (clearTimerOnRealActivity { s with log := s.log ++ [am] }, StepObs.silent)

/-- `runSilent s es` holds when processing the events of `es` from `s` issues
no preview request, writes no preview-path message, and arms no timer. -/
def runSilent : ControllerState → List Event → Bool
  | _, [] => true
  | s, e :: es =>
    let p := step s e
    (p.2.requested.isNone && !p.2.appendedPreview && !p.2.armedTimer) && runSilent p.1 es

/-- Fire the pending timer if its 800 ms quiet period has elapsed by time `t`
(the timeout callback runs at `armedAt + 800`); otherwise nothing happens. -/
def fireDue (s : ControllerState) (t : Nat) : ControllerState × List ConfigSnapshot :=
  match s.pending with
  | some pt =>
    if pt.armedAt + 800 ≤ t then
      ((step s (Event.timerFire (pt.armedAt + 800) true)).1,
       (step s (Event.timerFire (pt.armedAt + 800) true)).2.requested.toList)
    else (s, [])
  | none => (s, [])

/-- Processing a timed sequence of configuration changes.  Before each change
arriving at time `t`, a pending timer whose 800 ms quiet period has already
elapsed fires first; then the debounce effect runs with the new configuration.
The second component collects the configurations of the preview requests
issued along the way. -/
def runBurst : ControllerState → List (Nat × ConfigSnapshot) → ControllerState × List ConfigSnapshot
  | s, [] => (s, [])
  | s, (t, c) :: rest =>
    let f := fireDue s t
    let p := step f.1 (Event.effectRun true t c)
    let q := runBurst p.1 rest
    (q.1, f.2 ++ p.2.requested.toList ++ q.2)

/-- After the burst, time passes undisturbed: a still-pending timer fires at
the end of its quiet period. -/
def finishBurst (p : ControllerState × List ConfigSnapshot) (agentLoaded : Bool) :
    ControllerState × List ConfigSnapshot :=
  match p.1.pending with
  | some pt =>
    let q := step p.1 (Event.timerFire (pt.armedAt + 800) agentLoaded)
    (q.1, p.2 ++ q.2.requested.toList)
  | none => p

/-- Each change of the burst arrives before the quiet period of its
predecessor has elapsed: times are nondecreasing and consecutive gaps are
strictly below 800 ms. -/
def gapsLt800 : List (Nat × ConfigSnapshot) → Bool
  | [] => true
  | [_] => true
  | (t1, _) :: (t2, c2) :: rest =>
    (decide (t1 ≤ t2) && decide (t2 < t1 + 800)) && gapsLt800 ((t2, c2) :: rest)

/-- The session-token cache of one chat page:
`sessionToken`/`sessionTokenExpiry` React state (ms timestamps). -/
structure SessionTokenState where
  sessionToken : Option String
  sessionTokenExpiry : Option Int
deriving DecidableEq

/-- Response of the remote token issuer endpoint:
`{ token: string; expires_in: number }` (seconds). -/
structure TokenIssuerResponse where
  token : String
  expires_in : Int
deriving DecidableEq

/-- Result of one `ensureAgentSessionToken` call: the token handed back, the
cache state afterwards, and how many token-issuer network calls were made. -/
structure EnsureOutcome where
  token : String
  state : SessionTokenState
  issuerCalls : Nat
deriving DecidableEq

/-- JavaScript truthiness of the cached token (`null` and `''` are falsy). -/
def truthyToken : Option String → Bool
  | none => false
  | some s => s != ""

/-- JavaScript truthiness of the cached expiry (`null` and `0` are falsy). -/
def truthyExpiry : Option Int → Bool
  | none => false
  | some n => n != 0

/-- `ensureAgentSessionToken` (identical in the edit page and the test chat
page): throw if the agent record is not loaded; reuse the cached token when
`sessionToken && sessionTokenExpiry && sessionTokenExpiry - safetyWindow > now`
with `safetyWindow = 5000`; otherwise call the issuer once, cache the returned
token with expiry `now + expires_in * 1000`, and return it.  The issuer
response is passed as an oracle. -/
def ensureAgentSessionToken (agentLoaded : Bool) (st : SessionTokenState) (now : Int)
    (issuer : TokenIssuerResponse) : Except String EnsureOutcome :=
  if !agentLoaded then Except.error "Agent not ready"
  else if truthyToken st.sessionToken && truthyExpiry st.sessionTokenExpiry &&
      decide ((st.sessionTokenExpiry.getD 0) - 5000 > now) then
    Except.ok { token := st.sessionToken.getD "", state := st, issuerCalls := 0 }
  else
    Except.ok
      { token := issuer.token,
        state := { sessionToken := some issuer.token,
                   sessionTokenExpiry := some (now + issuer.expires_in * 1000) },
        issuerCalls := 1 }

/-- The test chat page effect keyed on the agent public identifier:
`setSessionToken(null); setSessionTokenExpiry(null);` — unconditional. -/
def clearSessionOnAgentChange (_st : SessionTokenState) : SessionTokenState :=
  { sessionToken := none, sessionTokenExpiry := none }

/-- Result of the synchronous-plus-settled view of one `sendTestMessage`
invocation: the log, the input field, and whether the token/chat network
interaction was attempted at all. -/
structure SendTestOutcome where
  log : List Message
  input : String
  attemptedRequest : Bool
deriving DecidableEq

/-- `sendTestMessage` of the edit page: guard
`if (!input.trim() || !createdAgent) return;`, then append the trimmed user
message, clear the input, attempt the token and chat requests, and append the
assistant reply (`result = some resp`) or the inline error bubble
(`result = none`). -/
def sendTestMessage (log : List Message) (input : String) (agentLoaded : Bool)
    (now : Nat) (result : Option String) : SendTestOutcome :=
  if input.trim == "" || !agentLoaded then
    { log := log, input := input, attemptedRequest := false }
  else
    let um : Message := { id := toString now, role := Role.user, content := input.trim }
    match result with
    | some resp =>
      { log := log ++ [um, { id := toString (now + 1), role := Role.assistant,
                             content := if resp == "" then "(no response)" else resp }],
        input := "", attemptedRequest := true }
    | none =>
      { log := log ++ [um, { id := toString (now + 1), role := Role.assistant,
                             content := "Error sending message. Try again." }],
        input := "", attemptedRequest := true }

/-! Sample configuration snapshots used by witnesses and counterexamples. -/

/-- A sample configuration snapshot. -/
def cfgA : ConfigSnapshot :=
  { domainEnabled := true, selectedPersona := "sales_rep", selectedDocs := [1, 2],
    webSearchEnabled := false, siteWhitelist := "", groundingMode := "blended",
    expertiseLevel := (7 : ℚ), additionalContext := "", personaOverrides := "",
    domain := "saas" }

/-- A sample snapshot differing from `cfgA` in one Boolean tunable. -/
def cfgB : ConfigSnapshot := { cfgA with domainEnabled := false }

/-- A sample snapshot equal to `cfgA` up to reordering of the document ids. -/
def cfgC : ConfigSnapshot := { cfgA with selectedDocs := [2, 1] }

/-- A sample snapshot differing from `cfgA` in the persona selector. -/
def cfgD : ConfigSnapshot := { cfgA with selectedPersona := "support" }

/-! Helper lemmas. -/

/-- A character list is a prefix-test match of itself followed by anything. -/
lemma isPrefixOf_append_self : ∀ (l rest : List Char), l.isPrefixOf (l ++ rest) = true
  | [], _ => by simp
  | a :: l, rest => by
      simp only [List.cons_append, List.isPrefixOf_cons₂, beq_self_eq_true, Bool.true_and]
      exact isPrefixOf_append_self l rest

/-- Appending to a string preserves a positive prefix test. -/
lemma strStartsWith_append_of (p q x : String) (h : strStartsWith q p = true) :
    strStartsWith (q ++ x) p = true := by
  simp only [strStartsWith, String.data_append] at h ⊢
  simp only [ List.isPrefixOf_iff_prefix] at h ⊢
  exact h.trans (List.prefix_append _ _)

/-- The id of the synthetic preview user message starts with "preview-". -/
lemma previewUserMessage_id_prefixed (t : Nat) (c : ConfigSnapshot) :
    strStartsWith (previewUserMessage t c).id "preview-" = true :=
  strStartsWith_append_of _ "preview-user-" _ (by decide)

/-- The id of the preview assistant reply starts with "preview-". -/
lemma previewAssistantMessage_id_prefixed (t : Nat) (resp : String) :
    strStartsWith (previewAssistantMessage t resp).id "preview-" = true :=
  strStartsWith_append_of _ "preview-assistant-" _ (by decide)

/-- The id of the preview error message starts with "preview-". -/
lemma previewErrorMessage_id_prefixed (t : Nat) :
    strStartsWith (previewErrorMessage t).id "preview-" = true :=
  strStartsWith_append_of _ "preview-error-" _ (by decide)

/-- The React cleanup does not touch the log. -/
lemma runCleanup_log (s : ControllerState) : (runCleanup s).log = s.log := by
  unfold runCleanup; split <;> rfl

/-- The React cleanup does not touch the settled hash. -/
lemma runCleanup_settledHash (s : ControllerState) :
    (runCleanup s).settledHash = s.settledHash := by
  unfold runCleanup; split <;> rfl

/-- The React cleanup does not touch the in-flight request. -/
lemma runCleanup_inFlight (s : ControllerState) :
    (runCleanup s).inFlight = s.inFlight := by
  unfold runCleanup; split <;> rfl

/-- The messages-watching effect does not touch the log. -/
lemma clearTimerOnRealActivity_log (s : ControllerState) :
    (clearTimerOnRealActivity s).log = s.log := by
  unfold clearTimerOnRealActivity; split <;> rfl

/-- Real-user activity over an appended log. -/
lemma hasRealUserActivity_append (l : List Message) (m : Message) :
    hasRealUserActivity (l ++ [m]) = (hasRealUserActivity l || isRealUserMessage m) := by
  simp [hasRealUserActivity]

/-- A run of the debounce effect with the current hash equal to the recorded
hash never arms a timer. -/
lemma settled_no_arm (s : ControllerState) (now : Nat) (c : ConfigSnapshot)
    (h : configHash c = s.settledHash) :
    (step s (Event.effectRun true now c)).2.armedTimer = false := by
  have hb : ((runCleanup s).settledHash == configHash c) = true := by
    rw [runCleanup_settledHash, h]
    exact beq_self_eq_true _
  by_cases hra : hasRealUserActivity (runCleanup s).log
  · simp [step, hra, StepObs.silent]
  · simp [step, hra, hb, StepObs.silent]

/-! Claim theorems. -/

/-- Claim C4: for every in-flight automatic preview request, if a real user
message is in the log when the response arrives, the preview response is
discarded entirely — the log is unchanged, no preview message is written, and
the flight is consumed. -/
theorem preview_discarded_on_race (s : ControllerState) (pu : Message) (now : Nat)
    (resp : String) (hIF : s.inFlight = some pu)
    (hRA : hasRealUserActivity s.log = true) :
    (step s (Event.previewResponse now resp)).1.log = s.log ∧
    (step s (Event.previewResponse now resp)).2.appendedPreview = false ∧
    (step s (Event.previewResponse now resp)).2.requested = none ∧
    (step s (Event.previewResponse now resp)).1.inFlight = none := by
  simp [step, hIF, hRA, StepObs.silent]

/-- Concrete state with an in-flight preview and a real user message. -/
def sRace : ControllerState :=
  { log := [{ id := "preview-user-5", role := Role.user, content := "p" },
            { id := "42", role := Role.user, content := "hello" }],
    settledHash := "h", pending := none, cleanupRegistered := true,
    inFlight := some { id := "preview-user-5", role := Role.user, content := "p" } }

/-- Witness for claim C4 at a concrete racing state. -/
theorem preview_discarded_on_race_witness :
    (step sRace (Event.previewResponse 100 "late")).1.log = sRace.log ∧
    (step sRace (Event.previewResponse 100 "late")).2.appendedPreview = false ∧
    (step sRace (Event.previewResponse 100 "late")).2.requested = none ∧
    (step sRace (Event.previewResponse 100 "late")).1.inFlight = none :=
  preview_discarded_on_race sRace _ 100 "late" rfl (by decide)

/-- Claim C8: whenever the active agent's public identifier changes, the
cached session token and its expiry are cleared unconditionally — even for a
cached token that is still inside its validity window. -/
theorem session_cleared_on_agent_change (st : SessionTokenState) (tok : String)
    (exp now : Int) (h1 : st.sessionToken = some tok)
    (h2 : st.sessionTokenExpiry = some exp) (h3 : exp - 5000 > now) :
    (clearSessionOnAgentChange st).sessionToken = none ∧
    (clearSessionOnAgentChange st).sessionTokenExpiry = none :=
  ⟨rfl, rfl⟩

/-- Witness for claim C8 with an unexpired cached token. -/
theorem session_cleared_on_agent_change_witness :
    (clearSessionOnAgentChange { sessionToken := some "tok", sessionTokenExpiry := some 1000000 }).sessionToken = none ∧
    (clearSessionOnAgentChange { sessionToken := some "tok", sessionTokenExpiry := some 1000000 }).sessionTokenExpiry = none :=
  session_cleared_on_agent_change _ "tok" 1000000 0 rfl rfl (by norm_num)

/-- Claim C10: `sendTestMessage` with empty or whitespace-only input, or with
the agent record not loaded, is a no-op: the log and the input field are
unchanged and no token or chat request is attempted. -/
theorem send_test_message_guard_noop (log : List Message) (input : String)
    (agentLoaded : Bool) (now : Nat) (result : Option String)
    (h : input.trim = "" ∨ agentLoaded = false) :
    sendTestMessage log input agentLoaded now result =
      { log := log, input := input, attemptedRequest := false } := by
  rcases h with h | h <;> simp [sendTestMessage, h]

/-- Witness for claim C10 with the agent record not loaded. -/
theorem send_test_message_guard_noop_witness :
    sendTestMessage [] "hi" false 5 (some "r") =
      { log := [], input := "hi", attemptedRequest := false } :=
  send_test_message_guard_noop [] "hi" false 5 (some "r") (Or.inr rfl)

/-- Claim C9: every message created by the automatic preview path carries an
id starting with "preview-", none of them satisfies the real-user predicate,
and consequently the fire/response/failure steps of an automatic preview round
never establish real-user activity. -/
theorem preview_messages_not_real_user (t : Nat) (c : ConfigSnapshot) (resp : String) :
    strStartsWith (previewUserMessage t c).id "preview-" = true ∧
    strStartsWith (previewAssistantMessage t resp).id "preview-" = true ∧
    strStartsWith (previewErrorMessage t).id "preview-" = true ∧
    isRealUserMessage (previewUserMessage t c) = false ∧
    isRealUserMessage (previewAssistantMessage t resp) = false ∧
    isRealUserMessage (previewErrorMessage t) = false ∧
    (∀ s : ControllerState, hasRealUserActivity s.log = false →
       (∀ m, s.inFlight = some m → isRealUserMessage m = false) →
       hasRealUserActivity (step s (Event.timerFire t true)).1.log = false ∧
       hasRealUserActivity (step s (Event.previewResponse t resp)).1.log = false ∧
       hasRealUserActivity (step s (Event.previewFailure t)).1.log = false) := by
  refine ⟨previewUserMessage_id_prefixed t c, previewAssistantMessage_id_prefixed t resp,
    previewErrorMessage_id_prefixed t, ?_, ?_, ?_, ?_⟩
  · simp only [isRealUserMessage]
    rw [previewUserMessage_id_prefixed t c]
    simp
  · simp [isRealUserMessage, previewAssistantMessage]
  · simp [isRealUserMessage, previewErrorMessage]
  · intro s hra hif
    refine ⟨?_, ?_, ?_⟩
    · rcases hp : s.pending with _ | pt
      · simpa [step, hp] using hra
      · have h2 : isRealUserMessage (previewUserMessage t pt.config) = false := by
          simp only [isRealUserMessage]
          rw [previewUserMessage_id_prefixed t pt.config]
          simp
        simp only [step, hp]
        rw [if_neg (by simp), if_neg (by simp [hra])]
        simp [hasRealUserActivity, h2]
    · rcases hf : s.inFlight with _ | pu
      · simpa [step, hf] using hra
      · have h1 : isRealUserMessage pu = false := hif pu hf
        have h2 : isRealUserMessage (previewAssistantMessage t resp) = false := by
          simp [isRealUserMessage, previewAssistantMessage]
        simp only [step, hf]
        rw [if_neg (by simp [hra])]
        simp [hasRealUserActivity, h1, h2]
    · rcases hf : s.inFlight with _ | pu
      · simpa [step, hf] using hra
      · have h1 : isRealUserMessage pu = false := hif pu hf
        have h2 : isRealUserMessage (previewErrorMessage t) = false := by
          simp [isRealUserMessage, previewErrorMessage]
        simp only [step, hf]
        rw [if_neg (by simp [hra])]
        simp [hasRealUserActivity, h1, h2]

/-- Concrete quiescent state for the C9 witness. -/
def sQuiet : ControllerState :=
  { log := [], settledHash := "", pending := some ⟨0, configHash cfgA, cfgA⟩,
    cleanupRegistered := true, inFlight := none }

/-- Witness for claim C9: a preview fire on a quiescent log leaves the
real-user predicate false. -/
theorem preview_messages_not_real_user_witness :
    hasRealUserActivity sQuiet.log = false ∧
    hasRealUserActivity (step sQuiet (Event.timerFire 0 true)).1.log = false :=
  ⟨by decide,
   ((preview_messages_not_real_user 0 cfgA "ok").2.2.2.2.2.2 sQuiet (by decide)
     (fun m h => Option.noConfusion h)).1⟩

/-- Claim C3 (amended): the cache check uses JavaScript truthiness, so reuse
requires a cached NON-EMPTY token.  Under that proviso: a cached token whose
expiry minus the 5000 ms safety window is strictly above `now` is returned
unchanged with zero issuer calls; otherwise exactly one issuer call is made,
the cache is set to the returned token with expiry `now + expires_in * 1000`,
and the new token is returned; a second invocation inside the safety window of
a freshly issued non-empty token makes zero additional calls. -/
theorem ensure_token_spec_amended (st : SessionTokenState) (now : Int)
    (issuer : TokenIssuerResponse) (hnow : 0 ≤ now) (htok : issuer.token ≠ "") :
    (∀ tok exp, st.sessionToken = some tok → tok ≠ "" →
       st.sessionTokenExpiry = some exp → exp - 5000 > now →
       ensureAgentSessionToken true st now issuer =
         Except.ok { token := tok, state := st, issuerCalls := 0 }) ∧
    (∀ exp, st.sessionTokenExpiry = some exp → ¬(exp - 5000 > now) →
       ensureAgentSessionToken true st now issuer =
         Except.ok { token := issuer.token,
                     state := { sessionToken := some issuer.token,
                                sessionTokenExpiry := some (now + issuer.expires_in * 1000) },
                     issuerCalls := 1 }) ∧
    (st.sessionToken = none →
       ensureAgentSessionToken true st now issuer =
         Except.ok { token := issuer.token,
                     state := { sessionToken := some issuer.token,
                                sessionTokenExpiry := some (now + issuer.expires_in * 1000) },
                     issuerCalls := 1 }) ∧
    (∀ now2 issuer2, 0 ≤ now2 → now + issuer.expires_in * 1000 - 5000 > now2 →
       ensureAgentSessionToken true
           { sessionToken := some issuer.token,
             sessionTokenExpiry := some (now + issuer.expires_in * 1000) } now2 issuer2 =
         Except.ok { token := issuer.token,
                     state := { sessionToken := some issuer.token,
                                sessionTokenExpiry := some (now + issuer.expires_in * 1000) },
                     issuerCalls := 0 }) := by
  refine ⟨?_, ?_, ?_, ?_⟩
  · intro tok exp h1 h2 h3 h4
    have hexp : exp ≠ 0 := by omega
    simp [ensureAgentSessionToken, truthyToken, truthyExpiry, h1, h2, h3, h4, hexp]
  · intro exp h1 h2
    simp [ensureAgentSessionToken, truthyToken, truthyExpiry, h1, h2]
  · intro h1
    simp [ensureAgentSessionToken, truthyToken, h1]
  · intro now2 issuer2 h1 h2
    have hexp : now + issuer.expires_in * 1000 ≠ 0 := by omega
    simp [ensureAgentSessionToken, truthyToken, truthyExpiry, htok, hexp, h2]

/-- Witness for claim C3 (amended): reuse of a cached non-empty unexpired
token, and a follow-up refresh plus in-window reuse. -/
theorem ensure_token_spec_amended_witness :
    ensureAgentSessionToken true { sessionToken := some "tok", sessionTokenExpiry := some 999999 }
        1000 { token := "fresh", expires_in := 600 } =
      Except.ok { token := "tok",
                  state := { sessionToken := some "tok", sessionTokenExpiry := some 999999 },
                  issuerCalls := 0 } ∧
    ensureAgentSessionToken true { sessionToken := some "fresh", sessionTokenExpiry := some 601000 }
        2000 { token := "other", expires_in := 600 } =
      Except.ok { token := "fresh",
                  state := { sessionToken := some "fresh", sessionTokenExpiry := some 601000 },
                  issuerCalls := 0 } :=
  ⟨(ensure_token_spec_amended { sessionToken := some "tok", sessionTokenExpiry := some 999999 }
      1000 { token := "fresh", expires_in := 600 } (by norm_num) (by decide)).1
      "tok" 999999 rfl (by decide) rfl (by norm_num),
   (ensure_token_spec_amended { sessionToken := some "x", sessionTokenExpiry := some 0 }
      1000 { token := "fresh", expires_in := 600 } (by norm_num) (by decide)).2.2.2
      2000 { token := "other", expires_in := 600 } (by norm_num) (by norm_num)⟩

/-- Counterexample for claim C3 as stated: a cached empty-string token exists
and is inside the safety window, yet the operation does NOT return it
unchanged — it makes one issuer call and replaces the cache (JavaScript
truthiness treats the empty string as no token). -/
theorem ensure_token_empty_token_counterexample :
    (some "" : Option String).isSome = true ∧
    (1000000 : Int) - 5000 > 0 ∧
    ensureAgentSessionToken true { sessionToken := some "", sessionTokenExpiry := some 1000000 }
        0 { token := "fresh", expires_in := 60 } =
      Except.ok { token := "fresh",
                  state := { sessionToken := some "fresh", sessionTokenExpiry := some 60000 },
                  issuerCalls := 1 } :=
  ⟨rfl, by norm_num, rfl⟩

/-- Claim C5 (amended): a teardown run of the debounce effect (step switched
away or agent unavailable) clears any pending timer, issues no preview
request, writes nothing to the log — but it also RESETS the recorded hash to
the empty string; an unmount runs only the registered cleanup, clearing the
timer and leaving the hash untouched. -/
theorem teardown_clears_timer_amended (s : ControllerState) (now : Nat)
    (c : ConfigSnapshot) (hwf : s.pending = none ∨ s.cleanupRegistered = true) :
    (step s (Event.effectRun false now c)).1.pending = none ∧
    (step s (Event.effectRun false now c)).2 = StepObs.silent ∧
    (step s (Event.effectRun false now c)).1.log = s.log ∧
    (step s (Event.effectRun false now c)).1.inFlight = s.inFlight ∧
    (step s (Event.effectRun false now c)).1.settledHash = "" ∧
    (step s Event.unmount).1.pending = none ∧
    (step s Event.unmount).2 = StepObs.silent ∧
    (step s Event.unmount).1.log = s.log ∧
    (step s Event.unmount).1.settledHash = s.settledHash := by
  have hu : (runCleanup s).pending = none := by
    unfold runCleanup
    rcases hwf with h | h
    · split <;> simp [h]
    · simp [h]
  refine ⟨?_, ?_, ?_, ?_, ?_, ?_, ?_, ?_, ?_⟩ <;>
    simp [step, runCleanup_log, runCleanup_settledHash, runCleanup_inFlight, hu]

/-- Concrete state for the C5 counterexample: a recorded non-empty hash and a
pending timer. -/
def sTear : ControllerState :=
  { log := [], settledHash := configHash cfgA,
    pending := some ⟨0, configHash cfgB, cfgB⟩, cleanupRegistered := true,
    inFlight := none }

/-- Witness for claim C5 (amended) at a concrete state with a pending timer. -/
theorem teardown_clears_timer_amended_witness :
    (step sTear (Event.effectRun false 50 cfgA)).1.pending = none ∧
    (step sTear (Event.effectRun false 50 cfgA)).2 = StepObs.silent ∧
    (step sTear Event.unmount).1.pending = none :=
  have h := teardown_clears_timer_amended sTear 50 cfgA (Or.inr rfl)
  ⟨h.1, h.2.1, h.2.2.2.2.2.1⟩

/-- Counterexample for claim C5 as stated: a teardown run does update the
recorded configuration hash — it resets it to the empty string. -/
theorem teardown_resets_hash_counterexample :
    (step sTear (Event.effectRun false 100 cfgB)).1.settledHash = "" ∧
    sTear.settledHash ≠ "" := by
  constructor
  · rfl
  · decide

/-- Claim C6: on preview failure with no real user activity, the log becomes
exactly the synthetic preview prompt followed by one assistant-authored
"preview unavailable" message; the recorded hash (set to the attempted hash
when the timer fired) is unchanged by the failure, so a run of the effect with
an unchanged configuration does not re-arm; with real user activity, nothing
is written. -/
theorem preview_failure_error_handling (s : ControllerState) (pu : Message)
    (now : Nat) (hIF : s.inFlight = some pu) :
    (hasRealUserActivity s.log = false →
       (step s (Event.previewFailure now)).1.log = [pu, previewErrorMessage now] ∧
       (previewErrorMessage now).role = Role.assistant ∧
       (previewErrorMessage now).content =
         "Preview unavailable right now. Try again after a moment." ∧
       (step s (Event.previewFailure now)).1.settledHash = s.settledHash ∧
       (∀ c now2, configHash c = (step s (Event.previewFailure now)).1.settledHash →
          (step (step s (Event.previewFailure now)).1
              (Event.effectRun true now2 c)).2.armedTimer = false)) ∧
    (hasRealUserActivity s.log = true →
       (step s (Event.previewFailure now)).1.log = s.log ∧
       (step s (Event.previewFailure now)).2.appendedPreview = false) ∧
    (∀ s2 : ControllerState, ∀ pt : PendingTimer, s2.pending = some pt →
       (step s2 (Event.timerFire now true)).1.settledHash = pt.hash) := by
  refine ⟨?_, ?_, ?_⟩
  · intro hra
    refine ⟨?_, rfl, rfl, ?_, ?_⟩
    · simp [step, hIF, hra]
    · simp [step, hIF, hra]
    · intro c now2 hc
      exact settled_no_arm _ now2 c hc
  · intro hra
    constructor <;> simp [step, hIF, hra, StepObs.silent]
  · intro s2 pt hp
    rcases hra2 : hasRealUserActivity s2.log <;>
      simp [step, hp, hra2]

/-- Concrete state with an in-flight preview prompt and a quiescent log, for
the C6 witness. -/
def sFlight : ControllerState :=
  { log := [previewUserMessage 7 cfgA], settledHash := configHash cfgA,
    pending := none, cleanupRegistered := true,
    inFlight := some (previewUserMessage 7 cfgA) }

/-- Witness for claim C6: a concrete failed preview appends exactly one error
message after the prompt and does not re-arm on the unchanged configuration. -/
theorem preview_failure_error_handling_witness :
    hasRealUserActivity sFlight.log = false ∧
    (step sFlight (Event.previewFailure 9)).1.log =
      [previewUserMessage 7 cfgA, previewErrorMessage 9] ∧
    (step (step sFlight (Event.previewFailure 9)).1
        (Event.effectRun true 20 cfgA)).2.armedTimer = false := by
  have h := (preview_failure_error_handling sFlight (previewUserMessage 7 cfgA) 9 rfl).1
    (by decide)
  exact ⟨by decide, h.1, h.2.2.2.2 cfgA 20 (by rw [h.2.2.2.1]; rfl)⟩

/-- Claim C7: two configuration snapshots equal in every field up to a
permutation of the selected document ids serialize to the same hash string
(fixed key order, ids sorted ascending); and a snapshot whose hash equals
the recorded hash never arms a new preview timer. -/
theorem config_hash_reorder_invariant (c1 c2 : ConfigSnapshot)
    (hperm : c1.selectedDocs.Perm c2.selectedDocs)
    (h1 : c1.domainEnabled = c2.domainEnabled)
    (h2 : c1.selectedPersona = c2.selectedPersona)
    (h3 : c1.webSearchEnabled = c2.webSearchEnabled)
    (h4 : c1.siteWhitelist = c2.siteWhitelist)
    (h5 : c1.groundingMode = c2.groundingMode)
    (h6 : c1.expertiseLevel = c2.expertiseLevel)
    (h7 : c1.additionalContext = c2.additionalContext)
    (h8 : c1.personaOverrides = c2.personaOverrides)
    (h9 : c1.domain = c2.domain) :
    configHash c1 = configHash c2 ∧
    (∀ (s : ControllerState) (now : Nat) (c : ConfigSnapshot),
       configHash c = s.settledHash →
       (step s (Event.effectRun true now c)).2.armedTimer = false) := by
  constructor
  · have hsorted : c1.selectedDocs.insertionSort (· ≤ ·) =
        c2.selectedDocs.insertionSort (· ≤ ·) := by
      have hs1 : List.Sorted (· ≤ ·) (c1.selectedDocs.insertionSort (· ≤ ·)) :=
        List.sorted_insertionSort _ _
      have hs2 : List.Sorted (· ≤ ·) (c2.selectedDocs.insertionSort (· ≤ ·)) :=
        List.sorted_insertionSort _ _
      have hp : (c1.selectedDocs.insertionSort (· ≤ ·)).Perm
          (c2.selectedDocs.insertionSort (· ≤ ·)) :=
        (List.perm_insertionSort _ _).trans
          (hperm.trans (List.perm_insertionSort _ _).symm)
      exact List.eq_of_perm_of_sorted hp hs1 hs2
    simp [configHash, docHash, hsorted, h1, h2, h3, h4, h5, h6, h7, h8, h9]
  · intro s now c hc
    exact settled_no_arm s now c hc

/-- Witness for claim C7: reordering the two selected document ids leaves the
hash unchanged. -/
theorem config_hash_reorder_invariant_witness :
    configHash cfgA = configHash cfgC :=
  (config_hash_reorder_invariant cfgA cfgC (by decide) rfl rfl rfl rfl rfl rfl rfl rfl rfl).1

/-- With real user activity in the log, every event is silent (no preview
request, no preview write, no timer arming) and real user activity persists. -/
lemma step_silent_of_real (s : ControllerState) (e : Event)
    (h : hasRealUserActivity s.log = true) :
    (step s e).2 = StepObs.silent ∧
    hasRealUserActivity (step s e).1.log = true := by
  cases e with
  | effectRun g now c =>
    cases g with
    | false => simp [step, runCleanup_log, h]
    | true =>
      have hra : hasRealUserActivity (runCleanup s).log = true := by
        rw [runCleanup_log]; exact h
      simp [step, hra, runCleanup_log, h]
  | unmount => simp [step, runCleanup_log, h]
  | timerFire now agentLoaded =>
    rcases hp : s.pending with _ | pt
    · simp [step, hp, h]
    · cases agentLoaded with
      | false => simp [step, hp, h]
      | true => simp [step, hp, h]
  | previewResponse now resp =>
    rcases hf : s.inFlight with _ | pu
    · simp [step, hf, h]
    · simp [step, hf, h]
  | previewFailure now =>
    rcases hf : s.inFlight with _ | pu
    · simp [step, hf, h]
    · simp [step, hf, h]
  | userSend now input agentLoaded =>
    rcases hg : (input.trim == "" || !agentLoaded) with _ | _
    · have hl : hasRealUserActivity
          (s.log ++ [{ id := toString now, role := Role.user, content := input.trim }]) = true := by
        rw [hasRealUserActivity_append, h]; rfl
      simp [step, hg, clearTimerOnRealActivity, clearTimerOnRealActivity_log, hl]
    · simp [step, hg, h]
  | manualResponse now resp =>
    refine ⟨rfl, ?_⟩
    have hlog : (step s (Event.manualResponse now resp)).1.log =
        s.log ++ [{ id := toString (now + 1), role := Role.assistant,
                    content := if resp == "" then "(no response)" else resp }] :=
      clearTimerOnRealActivity_log _
    rw [hlog, hasRealUserActivity_append, h]
    rfl
  | manualFailure now =>
    have hl : hasRealUserActivity
        (s.log ++ [{ id := toString (now + 1), role := Role.assistant,
                     content := "Error sending message. Try again." }]) = true := by
      rw [hasRealUserActivity_append, h]; rfl
    simp [step, clearTimerOnRealActivity, clearTimerOnRealActivity_log, hl]

/-- Claim C1: once the log contains a real user message (role user, id not
preview-prefixed), every subsequent sequence of events — configuration
changes, timer fires, responses, manual sends, teardowns — issues no automatic
preview request, writes no preview message, and arms no preview timer.  The
modelled page has no reset operation, so the suspension holds for every event
of the model. -/
theorem suspension_terminal (s : ControllerState) (es : List Event)
    (h : hasRealUserActivity s.log = true) : runSilent s es = true := by
  induction es generalizing s with
  | nil => rfl
  | cons e es ih =>
    have hs := step_silent_of_real s e h
    have hr : runSilent s (e :: es) =
        (((step s e).2.requested.isNone && !(step s e).2.appendedPreview &&
          !(step s e).2.armedTimer) && runSilent (step s e).1 es) := rfl
    rw [hr, hs.1]
    simpa [StepObs.silent] using ih (step s e).1 hs.2

/-- Concrete suspended state for the C1 witness. -/
def sReal : ControllerState :=
  { log := [{ id := "1700", role := Role.user, content := "hello" }],
    settledHash := "", pending := none, cleanupRegistered := false,
    inFlight := none }

/-- Concrete event trace for the C1 witness. -/
def esTrace : List Event :=
  [Event.effectRun true 0 cfgA, Event.timerFire 800 true, Event.previewFailure 900,
   Event.userSend 1000 "hi" true, Event.effectRun true 1200 cfgB, Event.unmount]

/-- Witness for claim C1 on a concrete suspended state and trace. -/
theorem suspension_terminal_witness :
    hasRealUserActivity sReal.log = true ∧ runSilent sReal esTrace = true :=
  ⟨by decide, suspension_terminal sReal esTrace (by decide)⟩

/-! Burst-processing lemmas for the debounce claim. -/

/-- The pending timer a quiet burst leaves behind: for an empty burst the
original one; otherwise determined by the last change of the burst. -/
def expectedPending (s : ControllerState) (changes : List (Nat × ConfigSnapshot)) :
    Option PendingTimer :=
  match changes.getLast? with
  | none => s.pending
  | some (t, c) =>
    if s.settledHash == configHash c then none else some ⟨t, configHash c, c⟩

/-- Compatibility of a pre-existing pending timer with the first change time:
the timer is not yet due when the first change arrives. -/
def armedOk (s : ControllerState) : List (Nat × ConfigSnapshot) → Prop
  | [] => True
  | (t1, _) :: _ => ∀ pt, s.pending = some pt → t1 < pt.armedAt + 800

/-- Destructuring the gap condition on a two-or-more burst. -/
lemma gapsLt800_cons (t1 : Nat) (c1 : ConfigSnapshot) (t2 : Nat) (c2 : ConfigSnapshot)
    (rest : List (Nat × ConfigSnapshot))
    (h : gapsLt800 ((t1, c1) :: (t2, c2) :: rest) = true) :
    t1 ≤ t2 ∧ t2 < t1 + 800 ∧ gapsLt800 ((t2, c2) :: rest) = true := by
  simp only [gapsLt800, Bool.and_eq_true, decide_eq_true_eq] at h
  exact ⟨h.1.1, h.1.2, h.2⟩

/-- The cleanup leaves no pending timer on a well-formed state. -/
lemma runCleanup_pending_none (s : ControllerState)
    (hwf : s.pending = none ∨ s.cleanupRegistered = true) :
    (runCleanup s).pending = none := by
  unfold runCleanup
  rcases hwf with h | h
  · split <;> simp [h]
  · simp [h]

/-- A quiet effect run whose hash equals the recorded hash: cleanup only. -/
lemma effectRun_settled (s : ControllerState) (now : Nat) (c : ConfigSnapshot)
    (hra : hasRealUserActivity s.log = false)
    (hc : (s.settledHash == configHash c) = true) :
    step s (Event.effectRun true now c) = (runCleanup s, StepObs.silent) := by
  have hra2 : hasRealUserActivity (runCleanup s).log = false := by
    rw [runCleanup_log]; exact hra
  have hc2 : ((runCleanup s).settledHash == configHash c) = true := by
    rw [runCleanup_settledHash]; exact hc
  simp [step, hra2, hc2]

/-- A quiet effect run whose hash differs from the recorded hash: cleanup,
then arm a fresh timer carrying the new hash and configuration. -/
lemma effectRun_arm (s : ControllerState) (now : Nat) (c : ConfigSnapshot)
    (hra : hasRealUserActivity s.log = false)
    (hc : (s.settledHash == configHash c) = false) :
    step s (Event.effectRun true now c) =
      ({ runCleanup s with
          pending := some ⟨now, configHash c, c⟩,
          cleanupRegistered := true },
       { requested := none, appendedPreview := false, armedTimer := true }) := by
  have hra2 : hasRealUserActivity (runCleanup s).log = false := by
    rw [runCleanup_log]; exact hra
  have hc2 : ((runCleanup s).settledHash == configHash c) = false := by
    rw [runCleanup_settledHash]; exact hc
  simp [step, hra2, hc2]

/-- A timer fire on a quiet log: record the hash, replace the log with the
synthetic prompt, and issue the preview request with the armed configuration. -/
lemma timerFire_fire (s : ControllerState) (pt : PendingTimer) (now : Nat)
    (hp : s.pending = some pt) (hra : hasRealUserActivity s.log = false) :
    step s (Event.timerFire now true) =
      ({ s with
          pending := none,
          settledHash := pt.hash,
          log := [previewUserMessage now pt.config],
          inFlight := some (previewUserMessage now pt.config) },
       { requested := some pt.config, appendedPreview := true, armedTimer := false }) := by
  simp [step, hp, hra]

/-- Unfolding one step of `runBurst`. -/
lemma runBurst_cons (s : ControllerState) (t : Nat) (c : ConfigSnapshot)
    (rest : List (Nat × ConfigSnapshot)) :
    runBurst s ((t, c) :: rest) =
      ((runBurst (step (fireDue s t).1 (Event.effectRun true t c)).1 rest).1,
       (fireDue s t).2 ++ (step (fireDue s t).1 (Event.effectRun true t c)).2.requested.toList ++
         (runBurst (step (fireDue s t).1 (Event.effectRun true t c)).1 rest).2) := rfl

/-- The expected pending timer depends only on the settled hash once the burst
is nonempty. -/
lemma expectedPending_congr (s1 s2 : ControllerState)
    (l : List (Nat × ConfigSnapshot)) (hsh : s1.settledHash = s2.settledHash)
    (hne : l ≠ []) : expectedPending s1 l = expectedPending s2 l := by
  rcases hl : l.getLast? with _ | tc
  · exact absurd (List.getLast?_eq_none_iff.mp hl) hne
  · obtain ⟨t, c⟩ := tc
    simp [expectedPending, hl, hsh]

/-- A burst of quiet configuration changes, each arriving inside the quiet
period of its predecessor, fires no timer and issues no request; it leaves the
log, recorded hash, and in-flight request untouched, and leaves exactly the
pending timer determined by the last change. -/
lemma runBurst_quiet : ∀ (changes : List (Nat × ConfigSnapshot)) (s : ControllerState),
    hasRealUserActivity s.log = false →
    gapsLt800 changes = true →
    armedOk s changes →
    (s.pending = none ∨ s.cleanupRegistered = true) →
    (runBurst s changes).2 = [] ∧
    (runBurst s changes).1.log = s.log ∧
    (runBurst s changes).1.settledHash = s.settledHash ∧
    (runBurst s changes).1.inFlight = s.inFlight ∧
    (runBurst s changes).1.pending = expectedPending s changes ∧
    ((runBurst s changes).1.pending = none ∨ (runBurst s changes).1.cleanupRegistered = true)
  | [], s, _, _, _, hwf => ⟨rfl, rfl, rfl, rfl, rfl, hwf⟩
  | (t, c) :: rest, s, hra, hg, ha, hwf => by
    have hfd : fireDue s t = (s, []) := by
      rcases hp : s.pending with _ | pt
      · simp [fireDue, hp]
      · have hlt := ha pt hp
        simp [fireDue, hp, Nat.not_le.mpr hlt]
    have hg2 : gapsLt800 rest = true := by
      cases rest with
      | nil => rfl
      | cons hd2 tl2 =>
        obtain ⟨t2, c2⟩ := hd2
        exact (gapsLt800_cons t c t2 c2 tl2 hg).2.2
    cases hcs : (s.settledHash == configHash c) with
    | true =>
      have hstep := effectRun_settled s t c hra hcs
      have h2p : (runCleanup s).pending = none := runCleanup_pending_none s hwf
      have hra2 : hasRealUserActivity (runCleanup s).log = false := by
        rw [runCleanup_log]; exact hra
      have harm2 : armedOk (runCleanup s) rest := by
        cases rest with
        | nil => trivial
        | cons hd2 tl2 =>
          obtain ⟨t2, c2⟩ := hd2
          intro pt hpt
          rw [h2p] at hpt
          exact Option.noConfusion hpt
      have IH := runBurst_quiet rest (runCleanup s) hra2 hg2 harm2 (Or.inl h2p)
      rw [runBurst_cons, hfd] at *
      rw [hstep]
      refine ⟨?_, ?_, ?_, ?_, ?_, ?_⟩
      · simp [IH.1, StepObs.silent]
      · rw [IH.2.1, runCleanup_log]
      · rw [IH.2.2.1, runCleanup_settledHash]
      · rw [IH.2.2.2.1, runCleanup_inFlight]
      · rw [IH.2.2.2.2.1]
        cases rest with
        | nil =>
          simp [expectedPending, h2p, hcs]
        | cons hd2 tl2 =>
          rw [expectedPending_congr (runCleanup s) s (hd2 :: tl2)
            (runCleanup_settledHash s) (by simp)]
          obtain ⟨t2, c2⟩ := hd2
          simp [expectedPending, List.getLast?_cons_cons]
      · exact IH.2.2.2.2.2
    | false =>
      have hstep := effectRun_arm s t c hra hcs
      have hra2 : hasRealUserActivity
          ({ runCleanup s with
              pending := some ⟨t, configHash c, c⟩,
              cleanupRegistered := true } : ControllerState).log = false := by
        show hasRealUserActivity (runCleanup s).log = false
        rw [runCleanup_log]; exact hra
      have harm2 : armedOk ({ runCleanup s with
          pending := some ⟨t, configHash c, c⟩,
          cleanupRegistered := true } : ControllerState) rest := by
        cases rest with
        | nil => trivial
        | cons hd2 tl2 =>
          obtain ⟨t2, c2⟩ := hd2
          intro pt hpt
          have hpt2 : pt = ⟨t, configHash c, c⟩ := by
            simpa using hpt.symm
          rw [hpt2]
          exact ((gapsLt800_cons t c t2 c2 tl2 hg).2.1)
      have IH := runBurst_quiet rest
        ({ runCleanup s with
            pending := some ⟨t, configHash c, c⟩,
            cleanupRegistered := true }) hra2 hg2 harm2 (Or.inr rfl)
      rw [runBurst_cons, hfd] at *
      rw [hstep]
      refine ⟨?_, ?_, ?_, ?_, ?_, ?_⟩
      · simp [IH.1]
      · rw [IH.2.1]
        show (runCleanup s).log = s.log
        exact runCleanup_log s
      · rw [IH.2.2.1]
        show (runCleanup s).settledHash = s.settledHash
        exact runCleanup_settledHash s
      · rw [IH.2.2.2.1]
        show (runCleanup s).inFlight = s.inFlight
        exact runCleanup_inFlight s
      · rw [IH.2.2.2.2.1]
        cases rest with
        | nil =>
          simp [expectedPending, hcs]
        | cons hd2 tl2 =>
          rw [expectedPending_congr
            ({ runCleanup s with
                pending := some ⟨t, configHash c, c⟩,
                cleanupRegistered := true }) s (hd2 :: tl2)
            (runCleanup_settledHash s) (by simp)]
          obtain ⟨t2, c2⟩ := hd2
          simp [expectedPending, List.getLast?_cons_cons]
      · exact IH.2.2.2.2.2

/-- Claim C2 (amended): a burst of configuration changes, each arriving within
less than the 800 ms quiet period after the previous one, starting with no
pending timer and no real user activity, fires nothing during the burst; and
provided the final configuration's hash differs from the recorded hash,
exactly one preview request is issued after the burst, carrying the final
configuration of the burst.  (If the final hash equals the recorded hash, no
request is issued at all — see the counterexample for the unamended claim.) -/
theorem debounce_coalescing_amended (s : ControllerState)
    (changes : List (Nat × ConfigSnapshot)) (tc : Nat × ConfigSnapshot)
    (hP : s.pending = none) (hRA : hasRealUserActivity s.log = false)
    (hg : gapsLt800 changes = true) (hlast : changes.getLast? = some tc)
    (hnew : (s.settledHash == configHash tc.2) = false) :
    (runBurst s changes).2 = [] ∧
    (finishBurst (runBurst s changes) true).2 = [tc.2] := by
  have harm : armedOk s changes := by
    cases changes with
    | nil => trivial
    | cons hd tl =>
      obtain ⟨t1, c1⟩ := hd
      intro pt hpt
      rw [hP] at hpt
      exact Option.noConfusion hpt
  have H := runBurst_quiet changes s hRA hg harm (Or.inl hP)
  refine ⟨H.1, ?_⟩
  have hpend : (runBurst s changes).1.pending =
      some ⟨tc.1, configHash tc.2, tc.2⟩ := by
    rw [H.2.2.2.2.1]
    obtain ⟨t, c⟩ := tc
    simp [expectedPending, hlast, hnew]
  have hra2 : hasRealUserActivity (runBurst s changes).1.log = false := by
    rw [H.2.1]; exact hRA
  have hfire := timerFire_fire (runBurst s changes).1 ⟨tc.1, configHash tc.2, tc.2⟩
    (tc.1 + 800) hpend hra2
  simp [finishBurst, hpend, hfire, H.1]

/-- Concrete settled state for the C2 witness and counterexample: the hash of
`cfgA` has been recorded by a previous successful preview. -/
def sSettled : ControllerState :=
  { log := [], settledHash := configHash cfgA, pending := none,
    cleanupRegistered := false, inFlight := none }

/-- Witness for claim C2 (amended): two rapid changes, 300 ms apart, produce
no request during the burst and exactly one request afterwards, carrying the
final configuration. -/
theorem debounce_coalescing_amended_witness :
    sSettled.pending = none ∧
    hasRealUserActivity sSettled.log = false ∧
    gapsLt800 [(0, cfgB), (300, cfgD)] = true ∧
    (runBurst sSettled [(0, cfgB), (300, cfgD)]).2 = [] ∧
    (finishBurst (runBurst sSettled [(0, cfgB), (300, cfgD)]) true).2 = [cfgD] :=
  ⟨rfl, rfl, by decide,
   (debounce_coalescing_amended sSettled [(0, cfgB), (300, cfgD)] (300, cfgD)
     rfl rfl (by decide) rfl (by decide)).1,
   (debounce_coalescing_amended sSettled [(0, cfgB), (300, cfgD)] (300, cfgD)
     rfl rfl (by decide) rfl (by decide)).2⟩

set_option maxRecDepth 4000 in
/-- Counterexample for claim C2 as stated: a burst of two rapid changes whose
final configuration returns to the already-settled one issues ZERO preview
requests, not exactly one — the pending timer of the burst is cancelled and
nothing re-arms. -/
theorem debounce_burst_counterexample :
    gapsLt800 [(0, cfgB), (400, cfgA)] = true ∧
    (finishBurst (runBurst sSettled [(0, cfgB), (400, cfgA)]) true).2 = [] := by
  constructor
  · decide
  · decide

end AgentPreview
